import Mathlib

/-!
Verification of the real-time collaboration gateway of the Trello-like
kanban backend (src/backend/app/main.py, src/backend/app/auth.py).

The embedding models:
  * the `ConnectionManager` registry (`active_connections : Dict[int, List[WebSocket]]`)
    as an association list from board id to a list of session handles;
  * Python exceptions relevant to the gateway as an explicit error type
    (`HTTPException`, `AttributeError`, `ValueError`, `WebSocketDisconnect`);
  * `ConnectionManager.connect` / `disconnect` / `broadcast` line by line,
    including the two misspelled attribute accesses in `broadcast`
    (`self.acrtive_connections` on line 72 and `self.active_conenections`
    on line 75 of main.py), which in Python raise `AttributeError`;
  * `Python list.remove`, which raises `ValueError` when the element is absent;
  * the `websocket_endpoint` handler as a function from its inputs to the
    ordered trace of observable events (accepts, sends, registry changes,
    closes), the final registry state, and the exception (if any) that
    escapes the handler.

Delivery failure of a transport is modelled by a parameter
`fails : SessionId → Bool`: `connection.send_json(message)` resolves to an
exception exactly for those connections (this is what
`asyncio.gather(..., return_exceptions=True)` observes).
-/

/-- A Python exception relevant to the gateway code. -/
inductive PyErr where
  | httpException (statusCode : Nat) (detail : String)
  | attributeError (missing : String)
  | valueError
  | webSocketDisconnect
deriving DecidableEq, Repr

/-- A WebSocket connection handle (one per inbound connection). -/
abbrev SessionId := Nat

/-- A JSON scalar value appearing in a message's `data` mapping. -/
inductive JVal where
  | n (v : Nat)
  | s (v : String)
deriving DecidableEq, Repr

/-- A broadcast message: a `type` tag and a `data` mapping, exactly the shape
of the dictionaries built in `websocket_endpoint` (main.py lines 616-623 and
650-656). -/
structure Msg where
  type : String
  data : List (String × JVal)
deriving DecidableEq, Repr

/-- The registry's underlying dictionary: board id to list of connections,
modelling `Dict[int, List[WebSocket]]`. -/
abbrev Dict := List (Nat × List SessionId)

/-- Python `board_id in d` membership test on the dictionary. -/
def dictContains (d : Dict) (k : Nat) : Bool :=
  d.any (fun p => p.1 = k)

/-- Python `d[board_id]` lookup (first entry with the key; total, returning
`[]` when absent — every use in the embedded code is guarded by
`dictContains`, matching the guards in the source). -/
def dictGet (d : Dict) (k : Nat) : List SessionId :=
  match d.find? (fun p => p.1 = k) with
  | some p => p.2
  | none => []

/-- Python `d[board_id] = v` assignment. -/
def dictSet (d : Dict) (k : Nat) (v : List SessionId) : Dict :=
  if dictContains d k then d.map (fun p => if p.1 = k then (k, v) else p)
  else d ++ [(k, v)]

/-- Python `del d[board_id]`. -/
def dictDel (d : Dict) (k : Nat) : Dict :=
  d.filter (fun p => ¬ p.1 = k)

/-- Python `l.remove(x)`: removes the first occurrence of `x`, raising
`ValueError` when `x` is not in the list. -/
def listRemove (l : List SessionId) (x : SessionId) : Except PyErr (List SessionId) :=
  if x ∈ l then .ok (l.erase x) else .error .valueError

/-- The `ConnectionManager` object of main.py line 8: its only real attribute
is `active_connections` (line 14). -/
structure CM where
  active_connections : Dict
deriving DecidableEq, Repr

/-- Embedded from `ConnectionManager.connect` (main.py lines 16-25): ensure an
entry for `board_id` exists, then append the websocket.  (The
`await websocket.accept()` on line 20 is a transport event, recorded by the
endpoint embedding's trace, not registry state.) -/
def CM.connect (self : CM) (websocket : SessionId) (board_id : Nat) : CM :=
  let d :=
    if dictContains self.active_connections board_id then self.active_connections
    else dictSet self.active_connections board_id []
  ⟨dictSet d board_id (dictGet d board_id ++ [websocket])⟩

/-- Embedded from `ConnectionManager.disconnect` (main.py lines 28-37): when
the board has an entry, `list.remove` the websocket (raising `ValueError` if
absent), and delete the entry when the list becomes empty. -/
def CM.disconnect (self : CM) (websocket : SessionId) (board_id : Nat) :
    Except PyErr CM :=
  if dictContains self.active_connections board_id then
    match listRemove (dictGet self.active_connections board_id) websocket with
    | .error e => .error e
    | .ok l =>
      let d := dictSet self.active_connections board_id l
      if l.isEmpty then .ok ⟨dictDel d board_id⟩ else .ok ⟨d⟩
  else .ok self

/-- Embedded from `ConnectionManager.broadcast` (main.py lines 39-76).
Returns the list of send attempts (the `send_tasks` awaited by
`asyncio.gather`, one per snapshotted connection, in order) paired with the
outcome: the new state on normal return, or the exception the call raises.

The source's cleanup code misspells the attribute twice:
line 72 reads `self.acrtive_connections` and line 75 reads
`self.active_conenections`; in Python each lookup raises `AttributeError`.
The `for connection in connections_to_remove` loop evaluates line 72 on its
first iteration, so a nonempty removal list raises there; with an empty
removal list control falls through to line 75, whose left conjunct
`board_id in self.active_connections` is evaluated first and, when true, the
right conjunct raises. -/
def CM.broadcast (fails : SessionId → Bool) (self : CM) (message : Msg)
    (board_id : Nat) : List (SessionId × Msg) × Except PyErr CM :=
  if dictContains self.active_connections board_id then
    let conns := dictGet self.active_connections board_id
    let sends := conns.map (fun c => (c, message))
    let connections_to_remove := conns.filter (fun c => fails c)
    match connections_to_remove with
    | [] =>
      (sends,
        if dictContains self.active_connections board_id then
          .error (PyErr.attributeError "active_conenections")
        else .ok self)
    | _ :: _ =>
      (sends, .error (PyErr.attributeError "acrtive_connections"))
  else ([], .ok self)

/-- A registered user row (models.User as used by the gateway). -/
structure User where
  id : Nat
  email : String
deriving DecidableEq, Repr

/-- A board row: id, owner, and member user ids (models.Board as used by the
gateway's authorization check). -/
structure Board where
  id : Nat
  owner_id : Nat
  members : List Nat
deriving DecidableEq, Repr

/-- The relational state the gateway reads (users and boards). -/
structure DB where
  users : List User
  boards : List Board
deriving DecidableEq, Repr

/-- A bearer token as `jose.jwt.decode` classifies it in
`auth.get_current_user`: decoding raises `JWTError` (`invalid`), or the
payload lacks a `sub` claim (`missingSub`), or it yields `sub = email`. -/
inductive Token where
  | invalid
  | missingSub
  | valid (email : String)
deriving DecidableEq, Repr

/-- Embedded from `crud.get_user_by_email` (crud.py lines 14-18): first user
with the given email, or none. -/
def get_user_by_email (db : DB) (email : String) : Option User :=
  db.users.find? (fun u => u.email = email)

/-- Embedded from `crud.get_board` (crud.py lines 42-46): first board with the
given id, or none. -/
def get_board (db : DB) (board_id : Nat) : Option Board :=
  db.boards.find? (fun b => b.id = board_id)

/-- The 401 raised by `auth.get_current_user` (auth.py lines 67-71). -/
def credentials_exception : PyErr :=
  PyErr.httpException 401 "Could not validate credentials"

/-- Embedded from `auth.get_current_user` (auth.py lines 61-92): decode the
token (`JWTError` or missing `sub` raise the 401 `credentials_exception`),
then look the email up in the database (no user also raises the 401). -/
def get_current_user (token : Token) (db : DB) : Except PyErr User :=
  match token with
  | .invalid => .error credentials_exception
  | .missingSub => .error credentials_exception
  | .valid email =>
    match get_user_by_email db email with
    | none => .error credentials_exception
    | some user => .ok user

/-- Modelled from the spec: `websocket_endpoint` (main.py line 600) calls
`auth.get_current_user_from_token(token, db)`, a function `auth.py` does not
define.  The spec's Identity collaborator
`ValidateToken(token) -> UserIdentity | AuthError` is modelled as the token
validation of `auth.get_current_user` applied to an explicit token and
database session, which is the only token-validation logic in the
repository. -/
def get_current_user_from_token (token : Token) (db : DB) : Except PyErr User :=
  get_current_user token db

/-- The `USER_JOINED` message of main.py lines 616-623: its `data` mapping
carries exactly `user_id`, `email`, `board_id`. -/
def join_message (current_user : User) (board_id : Nat) : Msg :=
  { type := "USER_JOINED",
    data := [("user_id", JVal.n current_user.id),
             ("email", JVal.s current_user.email),
             ("board_id", JVal.n board_id)] }

/-- The `USER_LEFT` message of main.py lines 650-656: its `data` mapping
carries exactly `user_id`, `board_id`. -/
def leave_message (user_id board_id : Nat) : Msg :=
  { type := "USER_LEFT",
    data := [("user_id", JVal.n user_id), ("board_id", JVal.n board_id)] }

/-- Observable events of one run of `websocket_endpoint`, in order. -/
inductive Event where
  | accept (websocket : SessionId)
  | registered (websocket : SessionId) (board_id : Nat)
  | send (recipient : SessionId) (message : Msg)
  | removedFromRegistry (websocket : SessionId) (board_id : Nat)
  | close (websocket : SessionId) (code : Nat)
deriving DecidableEq, Repr

/-- Embedded from `websocket_endpoint` lines 594-610: the admission phase of
the try block.  Returns the value of the `current_user` local (set once
authentication succeeds, even if authorization then fails) and the exception
raised, if any: the 401 from token validation, the 404 when the board is
absent (line 604), or the 403 when the user is neither owner nor member
(line 610). -/
def admissionPhase (token : Token) (db : DB) (board_id : Nat) :
    Option User × Option PyErr :=
  match get_current_user_from_token token db with
  | .error e => (none, some e)
  | .ok current_user =>
    match get_board db board_id with
    | none => (some current_user, some (PyErr.httpException 404 "Board not found"))
    | some db_board =>
      let is_owner := db_board.owner_id = current_user.id
      let is_member := current_user.id ∈ db_board.members
      if ¬ (is_owner ∨ is_member) then
        (some current_user,
         some (PyErr.httpException 403 "Not authorized to access this board"))
      else (some current_user, none)

/-- Embedded from the except clauses of `websocket_endpoint`
(lines 635-641): `WebSocketDisconnect` is swallowed (`pass`),
`HTTPException` closes the socket with `WS_1008_POLICY_VIOLATION`, and any
other exception is not caught and stays pending. -/
def exceptDispatch (websocket : SessionId) (e : PyErr) :
    List Event × Option PyErr :=
  match e with
  | .webSocketDisconnect => ([], none)
  | .httpException _ _ => ([Event.close websocket 1008], none)
  | e => ([], some e)

/-- Embedded from the finally block of `websocket_endpoint` (lines 643-660):
when `current_user` was set, `manager.disconnect` runs (whose `ValueError`,
if raised, replaces any pending exception, Python's finally semantics), then
the `USER_LEFT` broadcast (whose exception likewise replaces any pending
one).  Returns the events of this block, the final registry, and the
exception escaping the handler, if any. -/
def finallyBlock (fails : SessionId → Bool) (current_user : Option User)
    (m : CM) (websocket : SessionId) (board_id : Nat) (pending : Option PyErr) :
    List Event × CM × Option PyErr :=
  match current_user with
  | none => ([], m, pending)
  | some u =>
    match CM.disconnect m websocket board_id with
    | .error e => ([], m, some e)
    | .ok m2 =>
      let p := CM.broadcast fails m2 (leave_message u.id board_id) board_id
      let evs := Event.removedFromRegistry websocket board_id ::
        p.1.map (fun q => Event.send q.1 q.2)
      match p.2 with
      | .error e => (evs, m2, some e)
      | .ok m3 => (evs, m3, pending)

/-- The result of one run of the handler: the ordered event trace, the final
registry state, and the exception that escapes the handler (`none` when the
handler returns normally). -/
structure RunResult where
  events : List Event
  manager : CM
  outcome : Option PyErr
deriving DecidableEq, Repr

/-- Embedded from `websocket_endpoint` (main.py lines 582-660).

Inputs: the failure set of transports (`fails`), the inbound websocket
handle, path parameter `board_id`, query parameter `token`, the database
contents, the initial registry state, and `loopExit`, the exception that
eventually ends the `websocket.receive_text()` loop (a
`WebSocketDisconnect` on clean disconnect, or any transport error), should
the loop be reached.

The body: `await websocket.accept()` (line 589); admission (lines 594-610);
on success `manager.connect` (which accepts again, line 20, and registers),
the `USER_JOINED` broadcast, and the receive loop; then the except clauses
and the finally block. -/
def websocket_endpoint (fails : SessionId → Bool) (websocket : SessionId)
    (board_id : Nat) (token : Token) (db : DB) (m0 : CM) (loopExit : PyErr) :
    RunResult :=
  let ev0 : List Event := [Event.accept websocket]
  match admissionPhase token db board_id with
  | (current_user, some e) =>
    let d := exceptDispatch websocket e
    let f := finallyBlock fails current_user m0 websocket board_id d.2
    ⟨ev0 ++ d.1 ++ f.1, f.2.1, f.2.2⟩
  | (some current_user, none) =>
    let m1 := CM.connect m0 websocket board_id
    let evC := [Event.accept websocket, Event.registered websocket board_id]
    let b := CM.broadcast fails m1 (join_message current_user board_id) board_id
    let evB := b.1.map (fun q => Event.send q.1 q.2)
    let afterTry : CM × PyErr :=
      match b.2 with
      | .error e => (m1, e)
      | .ok m2 => (m2, loopExit)
    let d := exceptDispatch websocket afterTry.2
    let f := finallyBlock fails (some current_user) afterTry.1 websocket
      board_id d.2
    ⟨ev0 ++ evC ++ evB ++ d.1 ++ f.1, f.2.1, f.2.2⟩
  | (none, none) =>
    ⟨ev0, m0, none⟩

/-- The spec's invariant 3: no room entry with an empty session set. -/
def noEmptyRooms (m : CM) : Prop :=
  ∀ p ∈ m.active_connections, p.2 ≠ []

/-- A transport failure set in which exactly the connection `x` fails. -/
def failsOnly (x : SessionId) : SessionId → Bool :=
  fun s => s == x

/-- A transport failure set in which every delivery succeeds. -/
def failsNone : SessionId → Bool :=
  fun _ => false

/-- A sample broadcast message. -/
def msgExample : Msg :=
  ⟨"CARD_UPDATED", []⟩

/-- A sample database: user 1 owns board 7, user 2 is neither owner nor
member of board 7. -/
def dbExample : DB :=
  ⟨[⟨1, "a@x.com"⟩, ⟨2, "c@x.com"⟩], [⟨7, 1, []⟩]⟩

/-! ### Dictionary lemmas -/

theorem dictGet_eq_nil {d : Dict} {k : Nat} (h : dictContains d k = false) :
    dictGet d k = [] := by
  unfold dictContains at h
  rw [List.any_eq_false] at h
  unfold dictGet
  have h2 : d.find? (fun p => p.1 = k) = none := by
    rw [List.find?_eq_none]
    intro p hp
    exact h p hp
  rw [h2]

theorem dictContains_of_dictGet_ne_nil {d : Dict} {k : Nat}
    (h : dictGet d k ≠ []) : dictContains d k = true := by
  by_contra hc
  exact h (dictGet_eq_nil (Bool.eq_false_iff.mpr hc))

theorem dictContains_dictSet_self (d : Dict) (k : Nat) (v : List SessionId) :
    dictContains (dictSet d k v) k = true := by
  unfold dictSet
  by_cases h : dictContains d k
  · simp only [h, if_true]
    unfold dictContains at h ⊢
    rw [List.any_eq_true] at h ⊢
    obtain ⟨p, hp, hpk⟩ := h
    refine ⟨(k, v), List.mem_map.mpr ⟨p, hp, ?_⟩, by simp⟩
    simp only [decide_eq_true_eq] at hpk
    simp [hpk]
  · simp only [h, if_false]
    unfold dictContains
    rw [List.any_eq_true]
    exact ⟨(k, v), List.mem_append_right _ (List.mem_singleton.mpr rfl), by simp⟩

theorem find?_map_key {d : Dict} {k : Nat} {v : List SessionId}
    (h : dictContains d k = true) :
    (d.map (fun p => if p.1 = k then (k, v) else p)).find? (fun p => p.1 = k)
      = some (k, v) := by
  induction d with
  | nil => simp [dictContains] at h
  | cons a rest ih =>
    by_cases ha : a.1 = k
    · simp only [List.map_cons, ha, if_true]
      exact List.find?_cons_of_pos _ (by simp)
    · simp only [List.map_cons, ha, if_false]
      rw [List.find?_cons_of_neg _ (by simpa using ha)]
      apply ih
      unfold dictContains at h ⊢
      rw [List.any_eq_true] at h ⊢
      obtain ⟨p, hp, hpk⟩ := h
      rcases List.mem_cons.mp hp with h1 | h1
      · exact absurd (by simpa [h1] using hpk) ha
      · exact ⟨p, h1, hpk⟩

theorem not_key_of_not_contains {d : Dict} {k : Nat}
    (h : ¬ dictContains d k = true) : ∀ p ∈ d, p.1 ≠ k := by
  intro p hp hk
  apply h
  unfold dictContains
  rw [List.any_eq_true]
  exact ⟨p, hp, by simpa using hk⟩

theorem dictGet_dictSet_self (d : Dict) (k : Nat) (v : List SessionId) :
    dictGet (dictSet d k v) k = v := by
  unfold dictSet
  by_cases h : dictContains d k
  · rw [if_pos h]
    unfold dictGet
    rw [find?_map_key h]
  · rw [if_neg h]
    unfold dictGet
    have h2 : d.find? (fun p => p.1 = k) = none := by
      rw [List.find?_eq_none]
      intro p hp
      simpa using not_key_of_not_contains h p hp
    rw [List.find?_append, h2]
    simp

theorem mem_dictSet {p : Nat × List SessionId} {d : Dict} {k : Nat}
    {v : List SessionId} (h : p ∈ dictSet d k v) :
    p = (k, v) ∨ (p ∈ d ∧ p.1 ≠ k) := by
  unfold dictSet at h
  by_cases hc : dictContains d k
  · rw [if_pos hc] at h
    obtain ⟨q, hq, hqe⟩ := List.mem_map.mp h
    by_cases hk : q.1 = k
    · left
      simp only [hk, if_true] at hqe
      exact hqe.symm
    · right
      simp only [hk, if_false] at hqe
      exact ⟨hqe ▸ hq, hqe ▸ hk⟩
  · rw [if_neg hc] at h
    rcases List.mem_append.mp h with h1 | h1
    · exact Or.inr ⟨h1, not_key_of_not_contains hc p h1⟩
    · exact Or.inl (List.mem_singleton.mp h1)

theorem mem_dictDel {p : Nat × List SessionId} {d : Dict} {k : Nat}
    (h : p ∈ dictDel d k) : p ∈ d ∧ p.1 ≠ k := by
  unfold dictDel at h
  have := List.mem_filter.mp h
  exact ⟨this.1, by simpa using this.2⟩

theorem dictContains_dictDel_self (d : Dict) (k : Nat) :
    dictContains (dictDel d k) k = false := by
  unfold dictContains
  rw [List.any_eq_false]
  intro p hp
  have := (mem_dictDel hp).2
  simpa using this

/-! ### Registry operation lemmas -/

theorem connect_room (m : CM) (ws : SessionId) (bid : Nat) :
    dictGet (CM.connect m ws bid).active_connections bid
      = dictGet m.active_connections bid ++ [ws] := by
  unfold CM.connect
  by_cases h : dictContains m.active_connections bid
  · rw [if_pos h]
    rw [dictGet_dictSet_self]
  · rw [if_neg h]
    rw [dictGet_dictSet_self, dictGet_dictSet_self,
      dictGet_eq_nil (Bool.eq_false_iff.mpr h)]

theorem connect_contains (m : CM) (ws : SessionId) (bid : Nat) :
    dictContains (CM.connect m ws bid).active_connections bid = true := by
  unfold CM.connect
  by_cases h : dictContains m.active_connections bid
  · rw [if_pos h]
    exact dictContains_dictSet_self _ _ _
  · rw [if_neg h]
    exact dictContains_dictSet_self _ _ _

theorem broadcast_sends (f : SessionId → Bool) (m : CM) (msg : Msg) (bid : Nat) :
    (CM.broadcast f m msg bid).1
      = (dictGet m.active_connections bid).map (fun c => (c, msg)) := by
  unfold CM.broadcast
  by_cases h : dictContains m.active_connections bid
  · rw [if_pos h]
    cases hf : (dictGet m.active_connections bid).filter (fun c => f c) with
    | nil => simp [hf]
    | cons a l => simp [hf]
  · rw [if_neg h]
    rw [dictGet_eq_nil (Bool.eq_false_iff.mpr h)]
    simp

theorem broadcast_error_of_contains (f : SessionId → Bool) (m : CM) (msg : Msg)
    {bid : Nat} (h : dictContains m.active_connections bid = true) :
    ∃ s, (CM.broadcast f m msg bid).2 = .error (PyErr.attributeError s) := by
  unfold CM.broadcast
  rw [if_pos h]
  cases hf : (dictGet m.active_connections bid).filter (fun c => f c) with
  | nil => exact ⟨"active_conenections", by simp [hf, h]⟩
  | cons a l => exact ⟨"acrtive_connections", by simp [hf]⟩

theorem broadcast_ok_state {f : SessionId → Bool} {m m2 : CM} {msg : Msg}
    {bid : Nat} (h : (CM.broadcast f m msg bid).2 = .ok m2) : m2 = m := by
  unfold CM.broadcast at h
  by_cases hc : dictContains m.active_connections bid
  · rw [if_pos hc] at h
    cases hf : (dictGet m.active_connections bid).filter (fun c => f c) with
    | nil => simp [hf, hc] at h
    | cons a l => simp [hf] at h
  · rw [if_neg hc] at h
    simpa using h.symm

theorem broadcast_ok_not_contains {f : SessionId → Bool} {m m2 : CM} {msg : Msg}
    {bid : Nat} (h : (CM.broadcast f m msg bid).2 = .ok m2) :
    dictContains m.active_connections bid = false := by
  by_cases hc : dictContains m.active_connections bid
  · obtain ⟨s, hs⟩ := broadcast_error_of_contains f m msg hc
    rw [hs] at h
    cases h
  · exact Bool.eq_false_iff.mpr hc

theorem broadcast_no_room {f : SessionId → Bool} {m : CM} {msg : Msg}
    {bid : Nat} (h : dictContains m.active_connections bid = false) :
    CM.broadcast f m msg bid = ([], .ok m) := by
  unfold CM.broadcast
  rw [if_neg (by simp [h])]

theorem disconnect_no_room {m : CM} {ws : SessionId} {bid : Nat}
    (h : dictContains m.active_connections bid = false) :
    CM.disconnect m ws bid = .ok m := by
  unfold CM.disconnect
  rw [if_neg (by simp [h])]

theorem disconnect_absent {m : CM} {ws : SessionId} {bid : Nat}
    (hc : dictContains m.active_connections bid = true)
    (hws : ws ∉ dictGet m.active_connections bid) :
    CM.disconnect m ws bid = .error PyErr.valueError := by
  unfold CM.disconnect
  rw [if_pos hc]
  unfold listRemove
  rw [if_neg hws]

theorem disconnect_room {m : CM} {ws : SessionId} {bid : Nat}
    {old : List SessionId} (h1 : ws ∉ old)
    (h2 : dictGet m.active_connections bid = old ++ [ws]) :
    ∃ m2, CM.disconnect m ws bid = .ok m2 ∧
      dictGet m2.active_connections bid = old ∧
      (old = [] → dictContains m2.active_connections bid = false) := by
  have hc : dictContains m.active_connections bid = true := by
    apply dictContains_of_dictGet_ne_nil
    rw [h2]
    simp
  have herase : (dictGet m.active_connections bid).erase ws = old := by
    rw [h2, List.erase_append_right _ h1, List.erase_cons_head]
    simp
  unfold CM.disconnect
  rw [if_pos hc]
  unfold listRemove
  rw [if_pos (by rw [h2]; exact List.mem_append_right _ (by simp))]
  rw [herase]
  cases old with
  | nil =>
    exact ⟨⟨dictDel (dictSet m.active_connections bid []) bid⟩, rfl,
      dictGet_eq_nil (dictContains_dictDel_self _ _),
      fun _ => dictContains_dictDel_self _ _⟩
  | cons a l =>
    exact ⟨⟨dictSet m.active_connections bid (a :: l)⟩, rfl,
      dictGet_dictSet_self _ _ _, fun h => by cases h⟩

/-! ### Admission, dispatch and teardown lemmas -/

theorem get_current_user_error {token : Token} {db : DB} {e : PyErr}
    (h : get_current_user token db = .error e) : e = credentials_exception := by
  unfold get_current_user at h
  cases token with
  | invalid => injection h with h2; exact h2.symm
  | missingSub => injection h with h2; exact h2.symm
  | valid email =>
    cases hf : get_user_by_email db email with
    | none => simp only [hf] at h; injection h with h2; exact h2.symm
    | some u => simp only [hf] at h; cases h

theorem admission_err_http {token : Token} {db : DB} {bid : Nat}
    {cu : Option User} {e : PyErr}
    (h : admissionPhase token db bid = (cu, some e)) :
    ∃ c s, e = PyErr.httpException c s := by
  unfold admissionPhase at h
  cases hv : get_current_user_from_token token db with
  | error e0 =>
    simp only [hv] at h
    have h3 := get_current_user_error
      (show get_current_user token db = .error e0 from hv)
    injection h with h1 h2
    injection h2 with h5
    exact ⟨401, "Could not validate credentials", by rw [← h5, h3]; rfl⟩
  | ok u =>
    simp only [hv] at h
    cases hb : get_board db bid with
    | none =>
      simp only [hb] at h
      injection h with h1 h2
      injection h2 with h5
      exact ⟨404, "Board not found", h5.symm⟩
    | some b =>
      simp only [hb] at h
      by_cases hauth : ¬ (b.owner_id = u.id ∨ u.id ∈ b.members)
      · rw [if_pos hauth] at h
        injection h with h1 h2
        injection h2 with h5
        exact ⟨403, "Not authorized to access this board", h5.symm⟩
      · rw [if_neg hauth] at h
        injection h with h1 h2
        cases h2

theorem exceptDispatch_no_send (ws : SessionId) (e : PyErr) :
    ∀ c msg, Event.send c msg ∉ (exceptDispatch ws e).1 := by
  intro c msg hmem
  cases e <;> simp [exceptDispatch] at hmem

theorem exceptDispatch_no_registered (ws : SessionId) (e : PyErr) :
    ∀ c bid, Event.registered c bid ∉ (exceptDispatch ws e).1 := by
  intro c bid hmem
  cases e <;> simp [exceptDispatch] at hmem

theorem finallyBlock_none (f : SessionId → Bool) (m : CM) (ws : SessionId)
    (bid : Nat) (p : Option PyErr) :
    finallyBlock f none m ws bid p = ([], m, p) := rfl

theorem finallyBlock_disc_err {f : SessionId → Bool} {u : User} {m : CM}
    {ws : SessionId} {bid : Nat} {p : Option PyErr} {e : PyErr}
    (h : CM.disconnect m ws bid = .error e) :
    finallyBlock f (some u) m ws bid p = ([], m, some e) := by
  unfold finallyBlock
  rw [h]

theorem finallyBlock_ok_err {f : SessionId → Bool} {u : User} {m m2 : CM}
    {ws : SessionId} {bid : Nat} {p : Option PyErr} {e : PyErr}
    (h : CM.disconnect m ws bid = .ok m2)
    (h2 : (CM.broadcast f m2 (leave_message u.id bid) bid).2 = .error e) :
    finallyBlock f (some u) m ws bid p =
      (Event.removedFromRegistry ws bid ::
        ((CM.broadcast f m2 (leave_message u.id bid) bid).1).map
          (fun q => Event.send q.1 q.2), m2, some e) := by
  unfold finallyBlock
  simp only [h, h2]

theorem finallyBlock_ok_ok {f : SessionId → Bool} {u : User} {m m2 m3 : CM}
    {ws : SessionId} {bid : Nat} {p : Option PyErr}
    (h : CM.disconnect m ws bid = .ok m2)
    (h2 : (CM.broadcast f m2 (leave_message u.id bid) bid).2 = .ok m3) :
    finallyBlock f (some u) m ws bid p =
      (Event.removedFromRegistry ws bid ::
        ((CM.broadcast f m2 (leave_message u.id bid) bid).1).map
          (fun q => Event.send q.1 q.2), m3, p) := by
  unfold finallyBlock
  simp only [h, h2]


/-! ### Endpoint branch lemmas -/

theorem endpoint_failed {fails : SessionId → Bool} {ws : SessionId} {bid : Nat}
    {token : Token} {db : DB} {m0 : CM} {loopExit : PyErr} {cu : Option User}
    {e : PyErr} (h : admissionPhase token db bid = (cu, some e)) :
    websocket_endpoint fails ws bid token db m0 loopExit =
      ⟨[Event.accept ws] ++ (exceptDispatch ws e).1 ++
         (finallyBlock fails cu m0 ws bid (exceptDispatch ws e).2).1,
       (finallyBlock fails cu m0 ws bid (exceptDispatch ws e).2).2.1,
       (finallyBlock fails cu m0 ws bid (exceptDispatch ws e).2).2.2⟩ := by
  unfold websocket_endpoint
  simp only [h]

theorem endpoint_admitted {fails : SessionId → Bool} {ws : SessionId}
    {bid : Nat} {token : Token} {db : DB} {m0 : CM} {loopExit : PyErr}
    {u : User} (h : admissionPhase token db bid = (some u, none)) :
    ∃ s, websocket_endpoint fails ws bid token db m0 loopExit =
      ⟨[Event.accept ws, Event.accept ws, Event.registered ws bid] ++
         ((CM.broadcast fails (CM.connect m0 ws bid) (join_message u bid) bid).1).map
           (fun q => Event.send q.1 q.2) ++
         (finallyBlock fails (some u) (CM.connect m0 ws bid) ws bid
           (some (PyErr.attributeError s))).1,
       (finallyBlock fails (some u) (CM.connect m0 ws bid) ws bid
         (some (PyErr.attributeError s))).2.1,
       (finallyBlock fails (some u) (CM.connect m0 ws bid) ws bid
         (some (PyErr.attributeError s))).2.2⟩ := by
  obtain ⟨s, hs⟩ := broadcast_error_of_contains fails (CM.connect m0 ws bid)
    (join_message u bid) (connect_contains m0 ws bid)
  refine ⟨s, ?_⟩
  unfold websocket_endpoint
  simp only [h, hs, exceptDispatch, List.append_nil, List.cons_append,
    List.nil_append, List.append_assoc]

theorem teardown_fresh {fails : SessionId → Bool} {cu : Option User} {m0 : CM}
    {ws : SessionId} {bid : Nat} {p : Option PyErr}
    (hws : ws ∉ dictGet m0.active_connections bid) :
    (finallyBlock fails cu m0 ws bid p).2.1 = m0 ∧
    ∀ ev ∈ (finallyBlock fails cu m0 ws bid p).1,
      ev = Event.removedFromRegistry ws bid := by
  cases cu with
  | none =>
    rw [finallyBlock_none]
    exact ⟨rfl, by intro ev h; cases h⟩
  | some u =>
    by_cases hc : dictContains m0.active_connections bid
    · rw [finallyBlock_disc_err (disconnect_absent hc hws)]
      exact ⟨rfl, by intro ev h; cases h⟩
    · have hc2 : dictContains m0.active_connections bid = false :=
        Bool.eq_false_iff.mpr hc
      have hb := @broadcast_no_room fails m0 (leave_message u.id bid) bid hc2
      rw [finallyBlock_ok_ok (disconnect_no_room hc2)
        (by rw [hb])]
      constructor
      · rfl
      · intro ev h
        rw [hb] at h
        simpa using h

/-! ### Claim theorems -/

/-- C1: the claim says a session whose delivery failed is removed from the
registry by the end of the same Broadcast call, shrinking the room by the
number of failed recipients.  The code instead raises `AttributeError` on the
misspelled `self.acrtive_connections` (main.py line 72) before any removal:
with room `{1: [10, 11]}` and connection 10 permanently failing, `broadcast`
attempts both sends and then raises, leaving both sessions registered. -/
theorem C1_failed_delivery_not_pruned :
    CM.broadcast (failsOnly 10) ⟨[(1, [10, 11])]⟩ msgExample 1
      = ([(10, msgExample), (11, msgExample)],
         .error (PyErr.attributeError "acrtive_connections")) := by
  rfl

/-- C2: the claim says Broadcast never raises to its caller when some or all
recipients fail delivery.  The code raises `AttributeError` out of every
broadcast to an existing room: through the misspelled
`self.acrtive_connections` (line 72) when some recipient failed, and through
the misspelled `self.active_conenections` (line 75) even when every delivery
succeeded. -/
theorem C2_broadcast_raises_to_caller :
    (CM.broadcast (failsOnly 10) ⟨[(1, [10, 11])]⟩ msgExample 1).2
        = .error (PyErr.attributeError "acrtive_connections") ∧
    (CM.broadcast failsNone ⟨[(1, [10, 11])]⟩ msgExample 1).2
        = .error (PyErr.attributeError "active_conenections") := by
  exact ⟨rfl, rfl⟩

/-- C7 counterexample: removing session 11 from board 1, whose room exists
but holds only session 10, is not a no-op: Python `list.remove` raises
`ValueError` (main.py line 33 has no guard for a missing element). -/
theorem C7_counterexample :
    CM.disconnect ⟨[(1, [10])]⟩ 11 1 = .error PyErr.valueError := by
  rfl

/-- C7 (amended): removing a session from a board with no room entry is a
no-op and not an error; but removing a session from an existing room that
does not contain it raises `ValueError` from `list.remove`. -/
theorem C7_remove_absent_semantics (m : CM) (ws : SessionId) (bid : Nat) :
    (dictContains m.active_connections bid = false →
      CM.disconnect m ws bid = .ok m) ∧
    (dictContains m.active_connections bid = true →
      ws ∉ dictGet m.active_connections bid →
      CM.disconnect m ws bid = .error PyErr.valueError) :=
  ⟨fun h => disconnect_no_room h, fun hc hws => disconnect_absent hc hws⟩

/-- C7 witness: both halves of the amended claim evaluated on the concrete
registry `{1: [10]}`. -/
theorem C7_witness :
    dictContains (CM.mk [(1, [10])]).active_connections 2 = false ∧
    CM.disconnect ⟨[(1, [10])]⟩ 11 2 = .ok ⟨[(1, [10])]⟩ ∧
    dictContains (CM.mk [(1, [10])]).active_connections 1 = true ∧
    (11 : SessionId) ∉ dictGet (CM.mk [(1, [10])]).active_connections 1 ∧
    CM.disconnect ⟨[(1, [10])]⟩ 11 1 = .error PyErr.valueError :=
  ⟨by decide, (C7_remove_absent_semantics ⟨[(1, [10])]⟩ 11 2).1 (by decide),
   by decide, by decide,
   (C7_remove_absent_semantics ⟨[(1, [10])]⟩ 11 1).2 (by decide) (by decide)⟩

/-- C8: broadcasting to a board with no room entry is a silent no-op: no
sends are attempted, the registry is unchanged, and no error is raised
(main.py line 44 guards the whole body). -/
theorem C8_broadcast_no_subscribers (f : SessionId → Bool) (m : CM) (msg : Msg)
    (bid : Nat) (h : dictContains m.active_connections bid = false) :
    CM.broadcast f m msg bid = ([], .ok m) :=
  broadcast_no_room h

/-- C8 witness: broadcasting to board 2 of the registry `{1: [10]}`. -/
theorem C8_witness :
    dictContains (CM.mk [(1, [10])]).active_connections 2 = false ∧
    CM.broadcast failsNone ⟨[(1, [10])]⟩ msgExample 2 = ([], .ok ⟨[(1, [10])]⟩) :=
  ⟨by decide, C8_broadcast_no_subscribers failsNone ⟨[(1, [10])]⟩ msgExample 2 (by decide)⟩

/-- C6: after any registry operation there is no room entry with an empty
session set: `connect` and `disconnect` preserve the invariant (and any state
`broadcast` returns normally is the unchanged input state), and removing the
last session of a room deletes the room entry itself, so a subsequent lookup
of that board finds no room. -/
theorem C6_no_empty_room_entries (m : CM) (ws : SessionId) (bid : Nat)
    (f : SessionId → Bool) (msg : Msg) :
    (noEmptyRooms m → noEmptyRooms (CM.connect m ws bid)) ∧
    (noEmptyRooms m → ∀ m2, CM.disconnect m ws bid = .ok m2 → noEmptyRooms m2) ∧
    (noEmptyRooms m → ∀ m2, (CM.broadcast f m msg bid).2 = .ok m2 →
      noEmptyRooms m2) ∧
    (dictGet m.active_connections bid = [ws] →
      ∃ m2, CM.disconnect m ws bid = .ok m2 ∧
        dictContains m2.active_connections bid = false) := by
  refine ⟨?_, ?_, ?_, ?_⟩
  · intro h p hp
    have hp2 : p ∈ dictSet
        (if dictContains m.active_connections bid then m.active_connections
         else dictSet m.active_connections bid []) bid
        (dictGet
          (if dictContains m.active_connections bid then m.active_connections
           else dictSet m.active_connections bid []) bid ++ [ws]) := hp
    rcases mem_dictSet hp2 with h1 | ⟨h2, h3⟩
    · rw [h1]
      simp
    · by_cases hc : dictContains m.active_connections bid
      · rw [if_pos hc] at h2
        exact h p h2
      · rw [if_neg hc] at h2
        rcases mem_dictSet h2 with h4 | ⟨h5, h6⟩
        · exact absurd (by rw [h4]) h3
        · exact h p h5
  · intro h m2 hd
    unfold CM.disconnect at hd
    by_cases hc : dictContains m.active_connections bid
    · rw [if_pos hc] at hd
      unfold listRemove at hd
      by_cases hws : ws ∈ dictGet m.active_connections bid
      · rw [if_pos hws] at hd
        simp only at hd
        by_cases hl : ((dictGet m.active_connections bid).erase ws).isEmpty
        · rw [if_pos hl] at hd
          injection hd with hd2
          rw [← hd2]
          intro p hp
          have h5 := mem_dictDel hp
          rcases mem_dictSet h5.1 with h6 | ⟨h7, h8⟩
          · exact absurd (by rw [h6]) h5.2
          · exact h p h7
        · rw [if_neg hl] at hd
          injection hd with hd2
          rw [← hd2]
          intro p hp
          rcases mem_dictSet hp with h6 | ⟨h7, h8⟩
          · rw [h6]
            simpa using hl
          · exact h p h7
      · rw [if_neg hws] at hd
        cases hd
    · rw [if_neg hc] at hd
      injection hd with hd2
      rw [← hd2]
      exact h
  · intro h m2 hb
    rw [broadcast_ok_state hb]
    exact h
  · intro hroom
    obtain ⟨m2, hok, hget, hdel⟩ :=
      @disconnect_room m ws bid [] (by simp) (by simpa using hroom)
    exact ⟨m2, hok, hdel rfl⟩

/-- C6 witness: the invariant holds for `{1: [5]}`, is preserved by a
connect, and removing the room's last session deletes the entry. -/
theorem C6_witness :
    noEmptyRooms (CM.mk [(1, [5])]) ∧
    noEmptyRooms (CM.connect ⟨[(1, [5])]⟩ 6 1) ∧
    dictGet (CM.mk [(1, [5])]).active_connections 1 = [5] ∧
    (∃ m2, CM.disconnect ⟨[(1, [5])]⟩ 5 1 = .ok m2 ∧
      dictContains m2.active_connections 1 = false) := by
  refine ⟨?_, ?_, ?_, ?_⟩
  · intro p hp
    simp only [List.mem_singleton] at hp
    rw [hp]
    simp
  · exact (C6_no_empty_room_entries ⟨[(1, [5])]⟩ 6 1 failsNone msgExample).1
      (by intro p hp; simp only [List.mem_singleton] at hp; rw [hp]; simp)
  · rfl
  · exact (C6_no_empty_room_entries ⟨[(1, [5])]⟩ 5 1 failsNone msgExample).2.2.2
      (by rfl)

/-- C3 counterexample: user 2 presents a valid token for board 7, which user
1 owns with no members, while the board's room already holds session 4.  The
admission fails with the 403 it should, and the socket is closed with 1008,
but the finally block then calls `manager.disconnect` for a session that was
never registered: `list.remove` raises `ValueError`, which escapes the
connection handler — the failure does crash it. -/
theorem C3_counterexample :
    (websocket_endpoint failsNone 5 7 (Token.valid "c@x.com") dbExample
        ⟨[(7, [4])]⟩ PyErr.webSocketDisconnect).outcome
      = some PyErr.valueError ∧
    (admissionPhase (Token.valid "c@x.com") dbExample 7).2
      = some (PyErr.httpException 403 "Not authorized to access this board") := by
  exact ⟨rfl, rfl⟩

/-- C3 (amended): every failed admission closes the connection with policy
code 1008 (the same code for all three causes).  A failure during token
validation (no `current_user`) lets no exception escape the handler; but a
`Forbidden`/`NotFound` failure (where `current_user` was already set) lets
a `ValueError` escape whenever the target board has a room entry, because
the finally block tears down a session that was never registered. -/
theorem C3_admission_failure_handling (fails : SessionId → Bool)
    (ws : SessionId) (bid : Nat) (token : Token) (db : DB) (m0 : CM)
    (loopExit : PyErr) (cu : Option User) (e : PyErr)
    (hadm : admissionPhase token db bid = (cu, some e)) :
    Event.close ws 1008
        ∈ (websocket_endpoint fails ws bid token db m0 loopExit).events ∧
    (cu = none →
      (websocket_endpoint fails ws bid token db m0 loopExit).outcome = none) ∧
    (∀ u, cu = some u → ws ∉ dictGet m0.active_connections bid →
      (dictContains m0.active_connections bid = true →
        (websocket_endpoint fails ws bid token db m0 loopExit).outcome
          = some PyErr.valueError) ∧
      (dictContains m0.active_connections bid = false →
        (websocket_endpoint fails ws bid token db m0 loopExit).outcome
          = none)) := by
  obtain ⟨c, s, he⟩ := admission_err_http hadm
  have hdisp : exceptDispatch ws e = ([Event.close ws 1008], none) := by
    rw [he]
    rfl
  rw [endpoint_failed hadm]
  refine ⟨?_, ?_, ?_⟩
  · rw [hdisp]
    simp
  · intro hcu
    rw [hcu, hdisp]
    rfl
  · intro u hcu hws
    rw [hcu]
    constructor
    · intro hc
      rw [finallyBlock_disc_err (disconnect_absent hc hws)]
    · intro hc
      have hb := @broadcast_no_room fails m0 (leave_message u.id bid) bid hc
      rw [finallyBlock_ok_ok (disconnect_no_room hc) (by rw [hb]), hdisp]

/-- C3 witness: the amended claim applied to the counterexample's input (the
Forbidden case with a populated room) and to an invalid-token run. -/
theorem C3_witness :
    admissionPhase (Token.valid "c@x.com") dbExample 7
      = (some ⟨2, "c@x.com"⟩,
         some (PyErr.httpException 403 "Not authorized to access this board")) ∧
    Event.close 5 1008 ∈ (websocket_endpoint failsNone 5 7
      (Token.valid "c@x.com") dbExample ⟨[(7, [4])]⟩
      PyErr.webSocketDisconnect).events ∧
    (websocket_endpoint failsNone 5 7 (Token.valid "c@x.com") dbExample
      ⟨[(7, [4])]⟩ PyErr.webSocketDisconnect).outcome
      = some PyErr.valueError ∧
    (websocket_endpoint failsNone 5 7 Token.invalid dbExample ⟨[(7, [4])]⟩
      PyErr.webSocketDisconnect).outcome = none := by
  have h1 := C3_admission_failure_handling failsNone 5 7 (Token.valid "c@x.com")
    dbExample ⟨[(7, [4])]⟩ PyErr.webSocketDisconnect (some ⟨2, "c@x.com"⟩)
    (PyErr.httpException 403 "Not authorized to access this board") (by rfl)
  have h2 := C3_admission_failure_handling failsNone 5 7 Token.invalid
    dbExample ⟨[(7, [4])]⟩ PyErr.webSocketDisconnect none
    credentials_exception (by rfl)
  exact ⟨by rfl, h1.1, (h1.2.2 _ rfl (by decide)).1 (by rfl), h2.2.1 rfl⟩

/-- C4 counterexample: a run with an undecodable token.  The transport
handshake is finalized first — `await websocket.accept()` on main.py line 589
is the run's first event — and only then does token validation fail, after
which the already-accepted channel is closed with 1008.  So a client that
fails authentication is given an accepted live channel, contradicting the
claim that the handshake is never finalized before validation. -/
theorem C4_counterexample :
    (websocket_endpoint failsNone 5 7 Token.invalid dbExample ⟨[]⟩
        PyErr.webSocketDisconnect).events
      = [Event.accept 5, Event.close 5 1008] ∧
    get_current_user_from_token Token.invalid dbExample
      = .error credentials_exception := by
  exact ⟨rfl, rfl⟩

/-- C4 (amended): the transport handshake is finalized at the top of the
handler, before any token validation — every run's first event is the
accept.  What does hold of the claimed ordering is its registry half: a
client whose admission fails is never registered into any room (no
`registered` event occurs and the registry is left unchanged), so an
invalid-token client never appears in a room snapshot. -/
theorem C4_accept_precedes_validation (fails : SessionId → Bool)
    (ws : SessionId) (bid : Nat) (token : Token) (db : DB) (m0 : CM)
    (loopExit : PyErr) :
    (websocket_endpoint fails ws bid token db m0 loopExit).events.head?
      = some (Event.accept ws) ∧
    (∀ cu e, admissionPhase token db bid = (cu, some e) →
      ws ∉ dictGet m0.active_connections bid →
      Event.registered ws bid
          ∉ (websocket_endpoint fails ws bid token db m0 loopExit).events ∧
      (websocket_endpoint fails ws bid token db m0 loopExit).manager = m0) := by
  constructor
  · rcases hadm : admissionPhase token db bid with ⟨cu, oe⟩
    cases oe with
    | some e =>
      rw [endpoint_failed hadm]
      rfl
    | none =>
      cases cu with
      | some u =>
        obtain ⟨s, heq⟩ := endpoint_admitted hadm
        rw [heq]
        rfl
      | none =>
        unfold websocket_endpoint
        simp only [hadm]
        rfl
  · intro cu e hadm hws
    rw [endpoint_failed hadm]
    obtain ⟨mgr, hev⟩ := @teardown_fresh fails cu m0 ws bid
      ((exceptDispatch ws e).2) hws
    constructor
    · intro hmem
      simp only [List.mem_append, List.mem_singleton] at hmem
      rcases hmem with (h1 | h1) | h1
      · cases h1
      · exact exceptDispatch_no_registered ws e ws bid h1
      · cases hev _ h1
    · exact mgr

/-- C4 witness: the amended claim applied to an invalid-token run against the
registry `{7: [4]}`: the first event is the accept, no registration happens,
and the registry is unchanged. -/
theorem C4_witness :
    (websocket_endpoint failsNone 5 7 Token.invalid dbExample ⟨[(7, [4])]⟩
        PyErr.webSocketDisconnect).events.head? = some (Event.accept 5) ∧
    admissionPhase Token.invalid dbExample 7 = (none, some credentials_exception) ∧
    ((5 : SessionId) ∉ dictGet (CM.mk [(7, [4])]).active_connections 7) ∧
    Event.registered 5 7 ∉ (websocket_endpoint failsNone 5 7 Token.invalid
      dbExample ⟨[(7, [4])]⟩ PyErr.webSocketDisconnect).events ∧
    (websocket_endpoint failsNone 5 7 Token.invalid dbExample ⟨[(7, [4])]⟩
      PyErr.webSocketDisconnect).manager = ⟨[(7, [4])]⟩ := by
  have h := C4_accept_precedes_validation failsNone 5 7 Token.invalid dbExample
    ⟨[(7, [4])]⟩ PyErr.webSocketDisconnect
  have h2 := h.2 none credentials_exception (by rfl) (by decide)
  exact ⟨h.1, by rfl, by decide, h2.1, h2.2⟩

/-- C5: a connection that fails during authentication or authorization never
causes a `USER_LEFT` delivery: for any run whose admission fails, provided
the inbound websocket was not already registered in the target room, no
send event in the run's trace carries a `USER_LEFT` message.  (When
authentication failed, `current_user` is unset and the finally block skips
teardown entirely; when authorization failed, the teardown either finds no
room — so the leave broadcast sends nothing — or dies in `ValueError`
before the leave broadcast is reached.) -/
theorem C5_no_departure_for_unadmitted (fails : SessionId → Bool)
    (ws : SessionId) (bid : Nat) (token : Token) (db : DB) (m0 : CM)
    (loopExit : PyErr) (cu : Option User) (e : PyErr)
    (hadm : admissionPhase token db bid = (cu, some e))
    (hws : ws ∉ dictGet m0.active_connections bid) :
    ∀ c msg, Event.send c msg
        ∈ (websocket_endpoint fails ws bid token db m0 loopExit).events →
      msg.type ≠ "USER_LEFT" := by
  intro c msg hmem
  rw [endpoint_failed hadm] at hmem
  simp only [List.mem_append, List.mem_singleton] at hmem
  rcases hmem with (h1 | h1) | h1
  · cases h1
  · exact absurd h1 (exceptDispatch_no_send ws e c msg)
  · have hev := (@teardown_fresh fails cu m0 ws bid
      ((exceptDispatch ws e).2) hws).2
    cases hev _ h1

/-- C5 witness: the forbidden-user run from the C3 scenario delivers no
`USER_LEFT` to anyone. -/
theorem C5_witness :
    admissionPhase (Token.valid "c@x.com") dbExample 7
      = (some ⟨2, "c@x.com"⟩,
         some (PyErr.httpException 403 "Not authorized to access this board")) ∧
    ((5 : SessionId) ∉ dictGet (CM.mk [(7, [4])]).active_connections 7) ∧
    (∀ c msg, Event.send c msg ∈ (websocket_endpoint failsNone 5 7
        (Token.valid "c@x.com") dbExample ⟨[(7, [4])]⟩
        PyErr.webSocketDisconnect).events →
      msg.type ≠ "USER_LEFT") :=
  ⟨by rfl, by decide,
   C5_no_departure_for_unadmitted failsNone 5 7 (Token.valid "c@x.com")
     dbExample ⟨[(7, [4])]⟩ PyErr.webSocketDisconnect (some ⟨2, "c@x.com"⟩)
     (PyErr.httpException 403 "Not authorized to access this board")
     (by rfl) (by decide)⟩

/-- C9: on every successful admission the session is registered first and a
`USER_JOINED` message whose data is exactly
`{user_id, email, board_id}` is then sent to the full current membership of
the room — which includes the newly joined session itself. -/
theorem C9_join_broadcast_full_room (fails : SessionId → Bool)
    (ws : SessionId) (bid : Nat) (token : Token) (db : DB) (m0 : CM)
    (loopExit : PyErr) (u : User)
    (hadm : admissionPhase token db bid = (some u, none)) :
    ws ∈ dictGet (CM.connect m0 ws bid).active_connections bid ∧
    (∀ c ∈ dictGet (CM.connect m0 ws bid).active_connections bid,
      Event.send c (join_message u bid)
        ∈ (websocket_endpoint fails ws bid token db m0 loopExit).events) ∧
    (join_message u bid).data = [("user_id", JVal.n u.id),
      ("email", JVal.s u.email), ("board_id", JVal.n bid)] := by
  refine ⟨?_, ?_, rfl⟩
  · rw [connect_room]
    exact List.mem_append_right _ (by simp)
  · intro c hc
    obtain ⟨s, heq⟩ := endpoint_admitted hadm
    rw [heq]
    apply List.mem_append_left
    apply List.mem_append_right
    rw [broadcast_sends, List.map_map]
    exact List.mem_map.mpr ⟨c, hc, rfl⟩

/-- C9 witness: user 1 (owner of board 7) admitted while session 4 is already
in the room: the join message reaches 4 and the new session 5 itself. -/
theorem C9_witness :
    admissionPhase (Token.valid "a@x.com") dbExample 7
      = (some ⟨1, "a@x.com"⟩, none) ∧
    (5 : SessionId) ∈ dictGet (CM.connect ⟨[(7, [4])]⟩ 5 7).active_connections 7 ∧
    (∀ c ∈ dictGet (CM.connect ⟨[(7, [4])]⟩ 5 7).active_connections 7,
      Event.send c (join_message ⟨1, "a@x.com"⟩ 7)
        ∈ (websocket_endpoint failsNone 5 7 (Token.valid "a@x.com") dbExample
            ⟨[(7, [4])]⟩ PyErr.webSocketDisconnect).events) := by
  have h := C9_join_broadcast_full_room failsNone 5 7 (Token.valid "a@x.com")
    dbExample ⟨[(7, [4])]⟩ PyErr.webSocketDisconnect ⟨1, "a@x.com"⟩ (by rfl)
  exact ⟨by rfl, h.1, h.2.1⟩

theorem send_map_msg {l : List SessionId} {message : Msg} {c : SessionId}
    {msg : Msg}
    (h : Event.send c msg
      ∈ (l.map (fun x => (x, message))).map (fun q => Event.send q.1 q.2)) :
    msg = message ∧ c ∈ l := by
  rw [List.map_map] at h
  obtain ⟨q, hq, hqe⟩ := List.mem_map.mp h
  simp only [Function.comp] at hqe
  injection hqe with h1 h2
  exact ⟨h2.symm, h1 ▸ hq⟩

/-- C10: on every teardown of an admitted session (the websocket was fresh,
i.e. not already present in the target room), the trace splits as
`pre ++ removedFromRegistry :: post` where no `USER_LEFT` is sent in `pre`
— the registry removal strictly precedes the leave broadcast — and the
departing session never receives a `USER_LEFT` anywhere in the run, because
the leave broadcast recipients are the post-removal membership. -/
theorem C10_removed_before_departure_broadcast (fails : SessionId → Bool)
    (ws : SessionId) (bid : Nat) (token : Token) (db : DB) (m0 : CM)
    (loopExit : PyErr) (u : User)
    (hadm : admissionPhase token db bid = (some u, none))
    (hws : ws ∉ dictGet m0.active_connections bid) :
    ∃ pre post,
      (websocket_endpoint fails ws bid token db m0 loopExit).events
        = pre ++ Event.removedFromRegistry ws bid :: post ∧
      (∀ c msg, Event.send c msg ∈ pre → msg.type ≠ "USER_LEFT") ∧
      (∀ msg, msg.type = "USER_LEFT" →
        Event.send ws msg
          ∉ (websocket_endpoint fails ws bid token db m0 loopExit).events) := by
  obtain ⟨s, heq⟩ := endpoint_admitted hadm
  have hroom : dictGet (CM.connect m0 ws bid).active_connections bid
      = dictGet m0.active_connections bid ++ [ws] := connect_room m0 ws bid
  obtain ⟨m2, hd, hm2, _⟩ := disconnect_room hws hroom
  have hpost : (finallyBlock fails (some u) (CM.connect m0 ws bid) ws bid
      (some (PyErr.attributeError s))).1
      = Event.removedFromRegistry ws bid ::
          ((dictGet m0.active_connections bid).map
            (fun x => (x, leave_message u.id bid))).map
            (fun q => Event.send q.1 q.2) := by
    have hsends : (CM.broadcast fails m2 (leave_message u.id bid) bid).1
        = (dictGet m0.active_connections bid).map
            (fun x => (x, leave_message u.id bid)) := by
      rw [broadcast_sends, hm2]
    cases hb : (CM.broadcast fails m2 (leave_message u.id bid) bid).2 with
    | error e2 =>
      rw [finallyBlock_ok_err hd hb, hsends]
    | ok m3 =>
      rw [finallyBlock_ok_ok hd hb, hsends]
  have hjoin : ∀ c msg, Event.send c msg
      ∈ ((CM.broadcast fails (CM.connect m0 ws bid) (join_message u bid) bid).1).map
        (fun q => Event.send q.1 q.2) →
      msg = join_message u bid := by
    intro c msg h1
    rw [broadcast_sends] at h1
    exact (send_map_msg h1).1
  refine ⟨[Event.accept ws, Event.accept ws, Event.registered ws bid] ++
    ((CM.broadcast fails (CM.connect m0 ws bid) (join_message u bid) bid).1).map
      (fun q => Event.send q.1 q.2),
    ((dictGet m0.active_connections bid).map
      (fun x => (x, leave_message u.id bid))).map
      (fun q => Event.send q.1 q.2), ?_, ?_, ?_⟩
  · rw [heq]
    simp only [hpost]
  · intro c msg hmem
    rcases List.mem_append.mp hmem with h1 | h1
    · simp only [List.mem_cons, List.not_mem_nil, or_false] at h1
      rcases h1 with h2 | h2 | h2 <;> exact Event.noConfusion h2
    · rw [hjoin c msg h1]
      simp [join_message]
  · intro msg hty hmem
    rw [heq] at hmem
    simp only [hpost] at hmem
    rcases List.mem_append.mp hmem with h1 | h1
    · rcases List.mem_append.mp h1 with h2 | h2
      · simp only [List.mem_cons, List.not_mem_nil, or_false] at h2
        rcases h2 with h3 | h3 | h3 <;> exact Event.noConfusion h3
      · rw [hjoin ws msg h2] at hty
        simp [join_message] at hty
    · rcases List.mem_cons.mp h1 with h2 | h2
      · exact Event.noConfusion h2
      · exact hws (send_map_msg h2).2

/-- C10 witness: the owner-admission run of the C9 scenario: the removal
event precedes the leave send to session 4, and session 5 never receives a
`USER_LEFT`. -/
theorem C10_witness :
    admissionPhase (Token.valid "a@x.com") dbExample 7
      = (some ⟨1, "a@x.com"⟩, none) ∧
    ((5 : SessionId) ∉ dictGet (CM.mk [(7, [4])]).active_connections 7) ∧
    (∃ pre post,
      (websocket_endpoint failsNone 5 7 (Token.valid "a@x.com") dbExample
          ⟨[(7, [4])]⟩ PyErr.webSocketDisconnect).events
        = pre ++ Event.removedFromRegistry 5 7 :: post ∧
      (∀ c msg, Event.send c msg ∈ pre → msg.type ≠ "USER_LEFT") ∧
      (∀ msg, msg.type = "USER_LEFT" →
        Event.send 5 msg
          ∉ (websocket_endpoint failsNone 5 7 (Token.valid "a@x.com")
              dbExample ⟨[(7, [4])]⟩ PyErr.webSocketDisconnect).events)) :=
  ⟨by rfl, by decide,
   C10_removed_before_departure_broadcast failsNone 5 7
     (Token.valid "a@x.com") dbExample ⟨[(7, [4])]⟩ PyErr.webSocketDisconnect
     ⟨1, "a@x.com"⟩ (by rfl) (by decide)⟩
